import Mathlib

set_option autoImplicit false

namespace EngiVault

/-!
Shallow embedding of the EngiVault Python SDK request/response layer
(`src/python-sdk/engivault`): the HTTP transport (`client.py`), the pydantic
input/result models (`models.py`), the hydraulics and pumps facades, and the
process-wide convenience accessor (`shortcuts.py`).

JSON numbers are kept as uninterpreted literal strings (`JVal.num`): no claim
performs arithmetic on wire values, only presence/absence and pass-through
equality matter. Request parameters are embedded as rationals (`Rat`), since
only comparisons against zero and one are ever evaluated on them.
-/

/-- A JSON value, as consulted by the SDK when decoding response bodies.
Arrays never appear on any path the SDK inspects, so they are omitted. -/
inductive JVal where
  | null
  | bool (b : Bool)
  | num (lit : String)
  | str (s : String)
  | obj (fields : List (String × JVal))

/-- First-match lookup of a key in a decoded JSON object (Python `dict` keys
are unique, so first-match agrees with dict access). -/
def lookupField (fields : List (String × JVal)) (key : String) : Option JVal :=
  List.lookup key fields

/-- Python `str()` rendering of a JSON value that ends up passed where a
message string is expected (e.g. `error_data.get("error", ...)` returning a
non-string). The rendering of a nested dict is abstracted to a fixed token;
no claim inspects that case. -/
def pyToMessage : JVal → String
  | .null => "None"
  | .bool true => "True"
  | .bool false => "False"
  | .num lit => lit
  | .str s => s
  | .obj _ => "<dict>"

/-- The exception classes that can escape the SDK, from `exceptions.py`
(the six `EngiVaultError` subclasses) together with the Python built-ins and
third-party classes that the code can also raise: `RuntimeError` (from
`shortcuts.get_client`), `AttributeError` (failed attribute lookup),
`TypeError` (keyword-argument mismatch) and pydantic's own `ValidationError`
(uncaught when a result model rejects the response data). `apiError` also
carries the optional HTTP status code passed by `_make_request`. -/
inductive EVError where
  | configurationError (message : String)
  | validationError (message : String)
  | networkError (message : String)
  | authenticationError (message : String)
  | rateLimitError (message : String)
  | apiError (message : String) (statusCode : Option Nat)
  | runtimeError (message : String)
  | attributeError (message : String)
  | typeError (message : String)
  | pydanticValidationError (message : String)
deriving DecidableEq

/-- Whether the raised class belongs to the SDK's own error taxonomy, i.e.
subclasses `EngiVaultError` from `exceptions.py`. `RuntimeError`,
`AttributeError`, `TypeError` and pydantic's `ValidationError` do not. -/
def EVError.isEngiVaultError : EVError → Bool
  | .configurationError _ => true
  | .validationError _ => true
  | .networkError _ => true
  | .authenticationError _ => true
  | .rateLimitError _ => true
  | .apiError _ _ => true
  | .runtimeError _ => false
  | .attributeError _ => false
  | .typeError _ => false
  | .pydanticValidationError _ => false

/-- Whether the raised error is an `APIError`. -/
def EVError.isAPIError : EVError → Bool
  | .apiError _ _ => true
  | _ => false

/-- Whether the raised error is a `ValidationError` (the SDK's
`SDKValidationError` is declared in `exceptions.py` as a subclass alias of
`ValidationError`, so both are covered by this single constructor). -/
def EVError.isValidationError : EVError → Bool
  | .validationError _ => true
  | _ => false

/-- The body of an HTTP response: either not JSON-decodable (raw text), or a
decoded JSON object. A decodable body that is not an object (e.g. a bare
array) would make `error_data.get` raise `AttributeError` in Python; no claim
exercises that corner and it is left out of the model. -/
inductive Body where
  | notJson (text : String)
  | json (fields : List (String × JVal))

/-- The outcome of the underlying `requests` call: either a raised
`requests.exceptions.RequestException` (DNS failure, refused connection,
timeout — no response received), or a response with a status code and body. -/
inductive HttpOutcome where
  | failure (cause : String)
  | response (status : Nat) (body : Body)

/-- The wire-level envelope, `models.APIResponse`: `success` (required bool),
`data` (optional dict, default null), `error` (optional string, default
null), `timestamp` (required string). -/
structure APIResponse where
  success : Bool
  data : Option (List (String × JVal))
  error : Option String
  timestamp : String

/-- Pydantic validation of `APIResponse(**response_data)`. Returns the field
error text on failure (the exact pydantic message wording is abstracted; only
its presence matters to the code, which interpolates it after a fixed
prefix). Type coercions pydantic would additionally accept (e.g. the string
"true" for a bool) are not exercised by any claim and are not modelled. -/
def parseAPIResponse (fields : List (String × JVal)) : Except String APIResponse :=
  match lookupField fields "success" with
  | none => .error "success: field required"
  | some (.bool b) =>
    match lookupField fields "timestamp" with
    | none => .error "timestamp: field required"
    | some (.str ts) =>
      match lookupField fields "data" with
      | none => dataOk b ts none (lookupField fields "error")
      | some .null => dataOk b ts none (lookupField fields "error")
      | some (.obj o) => dataOk b ts (some o) (lookupField fields "error")
      | some _ => .error "data: value is not a valid dict"
    | some _ => .error "timestamp: value is not a valid string"
  | some _ => .error "success: value is not a valid boolean"
where
  dataOk (b : Bool) (ts : String) (d : Option (List (String × JVal)))
      (errField : Option JVal) : Except String APIResponse :=
    match errField with
    | none => .ok ⟨b, d, none, ts⟩
    | some .null => .ok ⟨b, d, none, ts⟩
    | some (.str e) => .ok ⟨b, d, some e, ts⟩
    | some _ => .error "error: value is not a valid string"

/-- Python `x or fallback` on an optional string: `None` and the empty string
are falsy and select the fallback. -/
def pyOrStr (x : Option String) (fallback : String) : String :=
  match x with
  | none => fallback
  | some s => if s = "" then fallback else s

/-- Python `d or left-brace right-brace` on an optional dict: `None` and the
empty dict are falsy and yield the empty dict (which for a dict value is the
value itself, so this is the same as defaulting null to empty). -/
def pyOrEmptyDict (d : Option (List (String × JVal))) : List (String × JVal) :=
  match d with
  | none => []
  | some l => if l.isEmpty then [] else l

/-- `EngiVaultClient._make_request` (`client.py` lines 94-161), given the
outcome of the single underlying `session.request` call. Raised exceptions
become `Except.error`; the success path returns `api_response.data or` the
empty dict. -/
def make_request (outcome : HttpOutcome) : Except EVError (List (String × JVal)) :=
  match outcome with
  | .failure cause => .error (.networkError ("Network request failed: " ++ cause))
  | .response status body =>
    if status = 401 then
      .error (.authenticationError "Invalid API key or JWT token")
    else if status = 429 then
      .error (.rateLimitError "Rate limit exceeded")
    else if 400 ≤ status then
      match body with
      | .json fields =>
        .error (.apiError
          (match lookupField fields "error" with
           | some v => pyToMessage v
           | none => "HTTP " ++ toString status)
          (some status))
      | .notJson text =>
        .error (.apiError ("HTTP " ++ toString status ++ ": " ++ text) (some status))
    else
      match body with
      | .notJson _ => .error (.apiError "Invalid JSON response from API" none)
      | .json fields =>
        match parseAPIResponse fields with
        | .error e => .error (.apiError ("Invalid response format: " ++ e) none)
        | .ok resp =>
          if resp.success then .ok (pyOrEmptyDict resp.data)
          else .error (.apiError (pyOrStr resp.error "Unknown API error") none)

example :
    make_request (.response 500 (.json [])) =
      .error (.apiError "HTTP 500" (some 500)) := rfl

example :
    make_request (.response 200 (.json
      [("success", .bool false), ("error", .str "X"), ("timestamp", .str "t")])) =
      .error (.apiError "X" none) := rfl

example :
    make_request (.response 200 (.json
      [("success", .bool true), ("timestamp", .str "t"),
       ("data", .obj [("velocity", .num "12.73")])])) =
      .ok [("velocity", .num "12.73")] := rfl

/-! ### Field-name translation (`models.to_camel_case`) -/

/-- Python `str.capitalize` on a character list: first character uppercased,
remaining characters lowercased. -/
def pyCapitalize : List Char → List Char
  | [] => []
  | c :: cs => c.toUpper :: cs.map Char.toLower

/-- Python `snake_str.split` on a single underscore: consecutive separators
produce empty components, and the empty string yields one empty component. -/
def splitOnUnderscore : List Char → List (List Char)
  | [] => [[]]
  | c :: cs =>
    let rest := splitOnUnderscore cs
    if c = '_' then [] :: rest
    else
      match rest with
      | [] => [[c]]
      | r :: rs => (c :: r) :: rs

/-- `models.to_camel_case`: keep the first underscore-separated component
as-is and capitalize each later component. -/
def to_camel_case (snake_str : String) : String :=
  match splitOnUnderscore snake_str.data with
  | [] => ""
  | c :: cs => String.mk (c ++ (cs.map pyCapitalize).flatten)

/-- Modelled from the spec: the wire→internal (camelCase→snake_case)
direction of the name translation, which the spec states is deterministic and
bidirectional (`fooBarBaz ↔ foo_bar_baz`). The source realizes this
direction only implicitly, through pydantic alias matching when populating
models from wire data, not as a standalone function; the spec's mechanical
rule is embedded here: each uppercase letter becomes an underscore followed
by its lowercase form. -/
def to_snake_case (camel : String) : String :=
  String.mk ((camel.data.map fun c =>
    if c.isUpper then ['_', c.toLower] else [c]).flatten)

example : to_camel_case "foo_bar_baz" = "fooBarBaz" := rfl
example : to_snake_case "fooBarBaz" = "foo_bar_baz" := rfl

/-! ### The request/response model field table (`models.py`) -/

/-- One declared field of a pydantic model: its snake_case Python name and
its explicit `alias=...` when the `Field` declaration carries one. -/
structure ModelField where
  name : String
  explicitAlias : Option String

/-- A pydantic model of `models.py`: whether it extends `CamelCaseModel`
(and therefore uses `to_camel_case` as alias generator), and its fields in
declaration order. -/
structure ModelSpec where
  modelName : String
  camelCaseAliases : Bool
  fields : List ModelField

/-- The wire name of a field: an explicit alias wins over the alias
generator; models not extending `CamelCaseModel` use the field name itself. -/
def ModelField.wireName (camelCaseAliases : Bool) (f : ModelField) : String :=
  match f.explicitAlias with
  | some a => a
  | none => if camelCaseAliases then to_camel_case f.name else f.name

/-- Shorthand for a field declared without an explicit alias. -/
def fld (n : String) : ModelField := ⟨n, none⟩

/-- Every request/response model declared in `models.py`, with every field
in declaration order. The single explicit alias in the file is
`manningSCoeff` on `OpenChannelFlowInput.mannings_s_coeff`. -/
def allModels : List ModelSpec := [
  ⟨"PressureDropInput", true, [fld "flow_rate", fld "pipe_diameter",
    fld "pipe_length", fld "fluid_density", fld "fluid_viscosity",
    fld "pipe_roughness"]⟩,
  ⟨"PressureDropResult", true, [fld "pressure_drop", fld "reynolds_number",
    fld "friction_factor", fld "velocity"]⟩,
  ⟨"FlowRateInput", true, [fld "pressure_drop", fld "pipe_diameter",
    fld "pipe_length", fld "fluid_density", fld "fluid_viscosity",
    fld "pipe_roughness"]⟩,
  ⟨"FlowRateResult", true, [fld "flow_rate", fld "velocity",
    fld "reynolds_number"]⟩,
  ⟨"PumpPerformanceInput", true, [fld "flow_rate", fld "head",
    fld "efficiency", fld "power"]⟩,
  ⟨"PumpPerformanceResult", true, [fld "hydraulic_power", fld "brake_power",
    fld "specific_speed", fld "efficiency"]⟩,
  ⟨"NPSHInput", true, [fld "suction_pressure", fld "vapor_pressure",
    fld "fluid_density", fld "suction_velocity", fld "suction_losses"]⟩,
  ⟨"NPSHResult", true, [fld "npsh_available", fld "npsh_required",
    fld "margin", fld "is_cavitation_risk"]⟩,
  ⟨"APIResponse", false, [fld "success", fld "data", fld "error",
    fld "timestamp"]⟩,
  ⟨"UsageStats", false, [fld "total_requests", fld "requests_today",
    fld "requests_this_month", fld "average_response_time",
    fld "top_endpoints", fld "daily_usage"]⟩,
  ⟨"HeatExchangerInput", true, [fld "heat_duty", fld "overall_u",
    fld "t_hot_in", fld "t_hot_out", fld "t_cold_in", fld "t_cold_out",
    fld "flow_arrangement"]⟩,
  ⟨"HeatExchangerResult", true, [fld "area", fld "lmtd", fld "effectiveness",
    fld "ntu", fld "capacity_ratio"]⟩,
  ⟨"LMTDInput", true, [fld "t_hot_in", fld "t_hot_out", fld "t_cold_in",
    fld "t_cold_out", fld "flow_arrangement"]⟩,
  ⟨"LMTDResult", false, [fld "lmtd"]⟩,
  ⟨"EffectivenessNTUInput", true, [fld "ntu", fld "capacity_ratio",
    fld "flow_arrangement"]⟩,
  ⟨"EffectivenessNTUResult", true, [fld "effectiveness",
    fld "max_heat_transfer"]⟩,
  ⟨"OpenChannelFlowInput", true, [fld "flow_rate", fld "channel_width",
    fld "channel_slope", ⟨"mannings_s_coeff", some "manningSCoeff"⟩,
    fld "channel_shape", fld "side_slope"]⟩,
  ⟨"OpenChannelFlowResult", true, [fld "normal_depth", fld "critical_depth",
    fld "velocity", fld "froude_number", fld "flow_regime",
    fld "hydraulic_radius", fld "wetted_perimeter", fld "top_width"]⟩,
  ⟨"CompressibleFlowInput", true, [fld "mach_number", fld "velocity",
    fld "temperature", fld "pressure", fld "gas_properties",
    fld "flow_type"]⟩,
  ⟨"CompressibleFlowResult", true, [fld "mach_number", fld "velocity",
    fld "speed_of_sound", fld "stagnation_temperature",
    fld "stagnation_pressure", fld "density", fld "flow_regime",
    fld "pressure_ratio", fld "temperature_ratio", fld "density_ratio"]⟩,
  ⟨"BoundaryLayerInput", true, [fld "velocity", fld "distance",
    fld "fluid_properties", fld "surface_roughness", fld "plate_length"]⟩,
  ⟨"BoundaryLayerResult", true, [fld "reynolds_number",
    fld "boundary_layer_thickness", fld "displacement_thickness",
    fld "momentum_thickness", fld "skin_friction_coefficient",
    fld "wall_shear_stress", fld "flow_regime"]⟩,
  ⟨"ExternalFlowInput", true, [fld "velocity", fld "characteristic_length",
    fld "fluid_properties", fld "geometry", fld "angle_of_attack"]⟩,
  ⟨"ExternalFlowResult", true, [fld "reynolds_number",
    fld "drag_coefficient", fld "lift_coefficient", fld "drag_force",
    fld "lift_force", fld "pressure_coefficient"]⟩]

example : to_camel_case "mannings_s_coeff" = "manningsSCoeff" := rfl
example : to_snake_case "manningSCoeff" = "manning_s_coeff" := rfl

example :
    (allModels.all fun m => m.fields.all fun f =>
      f.explicitAlias.isSome ||
        (to_snake_case (f.wireName m.camelCaseAliases) == f.name)) = true := by
  decide

/-! ### The hydraulics facade (`hydraulics/__init__.py`) -/

/-- Python `x or dflt` on an optional float: `None` and `0` (and `-0.0`) are
falsy and select the default. -/
def pyOrRat (x : Option Rat) (dflt : Rat) : Rat :=
  match x with
  | none => dflt
  | some r => if r = 0 then dflt else r

/-- The field values handed to `models.PressureDropInput`. Floats are
embedded as rationals; only sign comparisons are ever performed on them. -/
structure PressureDropInput where
  flow_rate : Rat
  pipe_diameter : Rat
  pipe_length : Rat
  fluid_density : Rat
  fluid_viscosity : Rat
  pipe_roughness : Rat
deriving DecidableEq

/-- The fields of `PressureDropInput` whose supplied value violates their
pydantic `Field(..., gt=0)` constraint, in declaration order. -/
def pressureDropViolations (i : PressureDropInput) : List String :=
  (if i.flow_rate ≤ 0 then ["flow_rate"] else []) ++
  (if i.pipe_diameter ≤ 0 then ["pipe_diameter"] else []) ++
  (if i.pipe_length ≤ 0 then ["pipe_length"] else []) ++
  (if i.fluid_density ≤ 0 then ["fluid_density"] else []) ++
  (if i.fluid_viscosity ≤ 0 then ["fluid_viscosity"] else []) ++
  (if i.pipe_roughness ≤ 0 then ["pipe_roughness"] else [])

/-- Pydantic validation of `PressureDropInput(...)`: all six fields are
declared `gt=0`. The error text stands for pydantic's report naming the
offending fields. -/
def validatePressureDropInput (i : PressureDropInput) :
    Except String PressureDropInput :=
  match pressureDropViolations i with
  | [] => .ok i
  | vs => .error (String.intercalate ", " vs)

/-- The parsed `models.PressureDropResult`. Each float field keeps the wire
numeric literal uninterpreted. -/
structure PressureDropResult where
  pressure_drop : String
  reynolds_number : String
  friction_factor : String
  velocity : String
deriving DecidableEq

/-- Pydantic population of a model field from wire data: with
`populate_by_name = True`, the (generated or explicit) alias takes priority
over the Python field name. -/
def lookupWire (data : List (String × JVal)) (wire name : String) : Option JVal :=
  match lookupField data wire with
  | some v => some v
  | none => lookupField data name

/-- Pydantic population of one required float field of a `CamelCaseModel`
result: the wire name is the alias generator's output. String-to-float
coercions pydantic would additionally accept are not exercised by any claim
and are not modelled. -/
def requireFloatField (data : List (String × JVal)) (name : String) :
    Except String String :=
  match lookupWire data (to_camel_case name) name with
  | some (.num lit) => .ok lit
  | some _ => .error (name ++ ": value is not a valid float")
  | none => .error (name ++ ": field required")

/-- `PressureDropResult(**response_data)` — direct pydantic construction in
`HydraulicsModule.pressure_drop`, NOT wrapped in any try/except: a failure
here escapes as pydantic's own `ValidationError`. Keys of `data` other than
the four required fields are ignored (pydantic's default `extra` policy). -/
def parsePressureDropResult (data : List (String × JVal)) :
    Except EVError PressureDropResult :=
  match requireFloatField data "pressure_drop",
        requireFloatField data "reynolds_number",
        requireFloatField data "friction_factor",
        requireFloatField data "velocity" with
  | .ok a, .ok b, .ok c, .ok d => .ok ⟨a, b, c, d⟩
  | .error e, _, _, _ => .error (.pydanticValidationError e)
  | _, .error e, _, _ => .error (.pydanticValidationError e)
  | _, _, .error e, _ => .error (.pydanticValidationError e)
  | _, _, _, .error e => .error (.pydanticValidationError e)

/-- The outcome of one facade call: the returned value or raised error,
together with the number of times the underlying transport
(`_make_request` / `session.request`) was invoked. -/
structure FacadeOutcome (α : Type) where
  result : Except EVError α
  transportCalls : Nat

/-- `HydraulicsModule.pressure_drop` (`hydraulics/__init__.py` lines 27-81):
build `PressureDropInput` with `pipe_roughness=pipe_roughness or 0.00015`
(Python truthiness: `None` and `0` both select the default), wrapping any
construction failure in `SDKValidationError` with zero transport calls; then
POST to `/api/v1/hydraulics/pressure-drop` (the `transport` argument stands
for the outcome of that single `session.request` call); then construct
`PressureDropResult` from the returned data. -/
def hydraulics_pressure_drop (transport : HttpOutcome)
    (flow_rate pipe_diameter pipe_length fluid_density fluid_viscosity : Rat)
    (pipe_roughness : Option Rat) : FacadeOutcome PressureDropResult :=
  let input : PressureDropInput :=
    ⟨flow_rate, pipe_diameter, pipe_length, fluid_density, fluid_viscosity,
      pyOrRat pipe_roughness (mkRat 15 100000)⟩
  match validatePressureDropInput input with
  | .error e =>
    ⟨.error (.validationError ("Invalid input parameters: " ++ e)), 0⟩
  | .ok _ =>
    match make_request transport with
    | .error e => ⟨.error e, 1⟩
    | .ok data => ⟨parsePressureDropResult data, 1⟩

/-- A well-formed mocked success response (the shape used by the repository's
own `tests/test_hydraulics.py`). -/
def mockPressureDropOutcome : HttpOutcome :=
  .response 200 (.json
    [("success", .bool true),
     ("data", .obj
       [("pressureDrop", .num "762517.46"),
        ("reynoldsNumber", .num "1273239.54"),
        ("frictionFactor", .num "0.0094"),
        ("velocity", .num "12.73")]),
     ("timestamp", .str "2025-09-16T17:19:34.027Z")])

example :
    (hydraulics_pressure_drop mockPressureDropOutcome 1 1 100 1000 1
      none).result =
    .ok ⟨"762517.46", "1273239.54", "0.0094", "12.73"⟩ := rfl

example :
    (hydraulics_pressure_drop mockPressureDropOutcome (-1) 1 100 1000
      1 none).transportCalls = 0 := rfl

/-! ### Client construction and authentication (`client.py`) -/

/-- Python truthiness of an optional string: `None` and the empty string are
falsy. -/
def pyTruthyStr : Option String → Bool
  | none => false
  | some s => !s.isEmpty

/-- A constructed `EngiVaultClient`: the stored credentials, the normalized
base URL, the timeout, and the session headers set once by `_setup_auth`
during `__init__`. No code path in the SDK writes to `session.headers` after
construction, so the headers are a plain immutable field here. -/
structure Client where
  api_key : Option String
  jwt_token : Option String
  base_url : String
  timeout : Nat
  headers : List (String × String)
deriving DecidableEq

/-- `EngiVaultClient._setup_auth`: the bearer scheme when `jwt_token` is
truthy, else the API-key scheme when `api_key` is truthy; then the fixed
content-type and user-agent headers. -/
def setup_auth (api_key jwt_token : Option String) : List (String × String) :=
  (if pyTruthyStr jwt_token then
     [("Authorization", "Bearer " ++ jwt_token.getD "")]
   else if pyTruthyStr api_key then
     [("X-API-Key", api_key.getD "")]
   else []) ++
  [("Content-Type", "application/json"),
   ("User-Agent", "EngiVault-Python-SDK/1.0.0")]

/-- Python `base_url.rstrip` with a slash argument: drop trailing slashes. -/
def rstripSlash (s : String) : String :=
  String.mk (s.data.reverse.dropWhile (· = '/')).reverse

/-- `EngiVaultClient.__init__` (`client.py` lines 46-76): raise
`ConfigurationError` when neither credential is truthy, else store the
credentials, strip trailing slashes off the base URL, and set up the session
headers. -/
def EngiVaultClient_init (api_key jwt_token : Option String)
    (base_url : String) (timeout : Nat) : Except EVError Client :=
  if !pyTruthyStr api_key && !pyTruthyStr jwt_token then
    .error (.configurationError "Either api_key or jwt_token must be provided")
  else
    .ok ⟨api_key, jwt_token, rstripSlash base_url, timeout,
      setup_auth api_key jwt_token⟩

/-- The headers attached to a `session.request` call issued by a client:
`requests` sends the session's headers on every request, and the SDK sets
them only in `_setup_auth`, so each request carries exactly the
construction-time headers. -/
def requestHeaders (c : Client) : List (String × String) := c.headers

/-! ### Process-wide convenience accessor (`shortcuts.py`) -/

/-- `shortcuts.init`: construct a client and store it in the module-global
`_global_client`, overwriting any prior value; when construction raises, the
exception propagates and the global is left unchanged. `jwt_token`,
`base_url` and `timeout` stand for the `**config` passthrough. -/
def shortcuts_init (store : Option Client) (api_key jwt_token : Option String)
    (base_url : String) (timeout : Nat) :
    Except EVError Client × Option Client :=
  match EngiVaultClient_init api_key jwt_token base_url timeout with
  | .ok c => (.ok c, some c)
  | .error e => (.error e, store)

/-- `shortcuts.get_client`: return the stored global client, or raise the
built-in `RuntimeError` when `init` was never called. -/
def get_client (store : Option Client) : Except EVError Client :=
  match store with
  | none =>
    .error (.runtimeError
      ("EngiVault client not initialized. " ++
       "Call engivault.init(\x27your-api-key\x27) first."))
  | some c => .ok c

/-! ### The pumps facade (`pumps/__init__.py`) and `shortcuts.pump_power` -/

/-- The methods defined in the body of `class PumpsModule` besides
`__init__`: `performance` and `npsh`. -/
inductive PumpsMethod where
  | performance
  | npsh
deriving DecidableEq

/-- Python attribute lookup of a method name on a `PumpsModule` instance:
only `performance` and `npsh` exist; any other name raises
`AttributeError` at the call site. -/
def PumpsModule_getattr (name : String) : Option PumpsMethod :=
  if name = "performance" then some .performance
  else if name = "npsh" then some .npsh
  else none

/-- The field values handed to `models.PumpPerformanceInput`. -/
structure PumpPerformanceInput where
  flow_rate : Rat
  head : Rat
  efficiency : Rat
  power : Rat
deriving DecidableEq

/-- The pydantic constraints of `PumpPerformanceInput`: `flow_rate`, `head`
and `power` are `gt=0`; `efficiency` is `gt=0, le=1`. -/
def pumpPerformanceViolations (i : PumpPerformanceInput) : List String :=
  (if i.flow_rate ≤ 0 then ["flow_rate"] else []) ++
  (if i.head ≤ 0 then ["head"] else []) ++
  (if i.efficiency ≤ 0 ∨ 1 < i.efficiency then ["efficiency"] else []) ++
  (if i.power ≤ 0 then ["power"] else [])

/-- Pydantic validation of `PumpPerformanceInput(...)`. -/
def validatePumpPerformanceInput (i : PumpPerformanceInput) :
    Except String PumpPerformanceInput :=
  match pumpPerformanceViolations i with
  | [] => .ok i
  | vs => .error (String.intercalate ", " vs)

/-- The parsed `models.PumpPerformanceResult`. -/
structure PumpPerformanceResult where
  hydraulic_power : String
  brake_power : String
  specific_speed : String
  efficiency : String
deriving DecidableEq

/-- `PumpPerformanceResult(**response_data)` in `PumpsModule.performance`
(uncaught, like every result-model construction in the facades). -/
def parsePumpPerformanceResult (data : List (String × JVal)) :
    Except EVError PumpPerformanceResult :=
  match requireFloatField data "hydraulic_power",
        requireFloatField data "brake_power",
        requireFloatField data "specific_speed",
        requireFloatField data "efficiency" with
  | .ok a, .ok b, .ok c, .ok d => .ok ⟨a, b, c, d⟩
  | .error e, _, _, _ => .error (.pydanticValidationError e)
  | _, .error e, _, _ => .error (.pydanticValidationError e)
  | _, _, .error e, _ => .error (.pydanticValidationError e)
  | _, _, _, .error e => .error (.pydanticValidationError e)

/-- `PumpsModule.performance` (`pumps/__init__.py` lines 27-74): validate
via `PumpPerformanceInput`, POST to `/api/v1/pumps/performance`, construct
`PumpPerformanceResult`. -/
def pumps_performance (transport : HttpOutcome)
    (flow_rate head efficiency power : Rat) :
    FacadeOutcome PumpPerformanceResult :=
  match validatePumpPerformanceInput ⟨flow_rate, head, efficiency, power⟩ with
  | .error e =>
    ⟨.error (.validationError ("Invalid input parameters: " ++ e)), 0⟩
  | .ok _ =>
    match make_request transport with
    | .error e => ⟨.error e, 1⟩
    | .ok data => ⟨parsePumpPerformanceResult data, 1⟩

/-- The field values handed to `models.NPSHInput`. -/
structure NPSHInput where
  suction_pressure : Rat
  vapor_pressure : Rat
  fluid_density : Rat
  suction_velocity : Rat
  suction_losses : Rat
deriving DecidableEq

/-- The pydantic constraints of `NPSHInput`: `fluid_density`,
`suction_velocity` and `suction_losses` are `gt=0`; the two pressures carry
no constraint. -/
def npshViolations (i : NPSHInput) : List String :=
  (if i.fluid_density ≤ 0 then ["fluid_density"] else []) ++
  (if i.suction_velocity ≤ 0 then ["suction_velocity"] else []) ++
  (if i.suction_losses ≤ 0 then ["suction_losses"] else [])

/-- Pydantic validation of `NPSHInput(...)`. -/
def validateNPSHInput (i : NPSHInput) : Except String NPSHInput :=
  match npshViolations i with
  | [] => .ok i
  | vs => .error (String.intercalate ", " vs)

/-- Pydantic population of one required bool field of a `CamelCaseModel`
result model. -/
def requireBoolField (data : List (String × JVal)) (name : String) :
    Except String Bool :=
  match lookupWire data (to_camel_case name) name with
  | some (.bool b) => .ok b
  | some _ => .error (name ++ ": value is not a valid boolean")
  | none => .error (name ++ ": field required")

/-- The parsed `models.NPSHResult`. -/
structure NPSHResult where
  npsh_available : String
  npsh_required : String
  margin : String
  is_cavitation_risk : Bool
deriving DecidableEq

/-- `NPSHResult(**response_data)` in `PumpsModule.npsh` (uncaught). -/
def parseNPSHResult (data : List (String × JVal)) :
    Except EVError NPSHResult :=
  match requireFloatField data "npsh_available",
        requireFloatField data "npsh_required",
        requireFloatField data "margin",
        requireBoolField data "is_cavitation_risk" with
  | .ok a, .ok b, .ok c, .ok d => .ok ⟨a, b, c, d⟩
  | .error e, _, _, _ => .error (.pydanticValidationError e)
  | _, .error e, _, _ => .error (.pydanticValidationError e)
  | _, _, .error e, _ => .error (.pydanticValidationError e)
  | _, _, _, .error e => .error (.pydanticValidationError e)

/-- `PumpsModule.npsh` (`pumps/__init__.py` lines 76-128). -/
def pumps_npsh (transport : HttpOutcome)
    (suction_pressure vapor_pressure fluid_density suction_velocity
      suction_losses : Rat) : FacadeOutcome NPSHResult :=
  match validateNPSHInput ⟨suction_pressure, vapor_pressure, fluid_density,
      suction_velocity, suction_losses⟩ with
  | .error e =>
    ⟨.error (.validationError ("Invalid input parameters: " ++ e)), 0⟩
  | .ok _ =>
    match make_request transport with
    | .error e => ⟨.error e, 1⟩
    | .ok data => ⟨parseNPSHResult data, 1⟩

/-- The value returned by a dynamically dispatched `PumpsModule` method. -/
inductive PumpsResult where
  | performanceResult (r : PumpPerformanceResult)
  | npshResult (r : NPSHResult)
deriving DecidableEq

/-- CPython keyword-argument binding against a method's positional parameter
names: an unexpected keyword raises `TypeError`, as does a missing required
argument. -/
def checkKwargs (params : List String) (kwargs : List (String × Rat)) :
    Except EVError Unit :=
  match kwargs.find? (fun kv => !params.contains kv.1) with
  | some kv =>
    .error (.typeError ("got an unexpected keyword argument " ++ kv.1))
  | none =>
    match params.find? (fun p => (kwargs.lookup p).isNone) with
    | some p => .error (.typeError ("missing required argument " ++ p))
    | none => .ok ()

/-- Calling a `PumpsModule` method found by attribute lookup, with keyword
arguments. After a successful binding every parameter is present in
`kwargs`, so the `getD 0` defaults below are never read. -/
def PumpsModule_call (transport : HttpOutcome) (m : PumpsMethod)
    (kwargs : List (String × Rat)) : FacadeOutcome PumpsResult :=
  match m with
  | .performance =>
    match checkKwargs ["flow_rate", "head", "efficiency", "power"] kwargs with
    | .error e => ⟨.error e, 0⟩
    | .ok _ =>
      let out := pumps_performance transport
        ((kwargs.lookup "flow_rate").getD 0) ((kwargs.lookup "head").getD 0)
        ((kwargs.lookup "efficiency").getD 0) ((kwargs.lookup "power").getD 0)
      ⟨out.result.map .performanceResult, out.transportCalls⟩
  | .npsh =>
    match checkKwargs ["suction_pressure", "vapor_pressure", "fluid_density",
        "suction_velocity", "suction_losses"] kwargs with
    | .error e => ⟨.error e, 0⟩
    | .ok _ =>
      let out := pumps_npsh transport
        ((kwargs.lookup "suction_pressure").getD 0)
        ((kwargs.lookup "vapor_pressure").getD 0)
        ((kwargs.lookup "fluid_density").getD 0)
        ((kwargs.lookup "suction_velocity").getD 0)
        ((kwargs.lookup "suction_losses").getD 0)
      ⟨out.result.map .npshResult, out.transportCalls⟩

/-- `shortcuts.pump_power` (`shortcuts.py` lines 166-201): fetch the global
client, then invoke the attribute named `pump_performance` on its pumps
facade with keyword arguments `flow_rate`, `head`, `efficiency` and
`fluid_density`. The attribute lookup happens before any validation or
network activity. -/
def pump_power (store : Option Client) (transport : HttpOutcome)
    (flow_rate head efficiency fluid_density : Rat) :
    FacadeOutcome PumpsResult :=
  match get_client store with
  | .error e => ⟨.error e, 0⟩
  | .ok _ =>
    match PumpsModule_getattr "pump_performance" with
    | none =>
      ⟨.error (.attributeError
        ("\x27PumpsModule\x27 object has no attribute " ++
         "\x27pump_performance\x27")), 0⟩
    | some m =>
      PumpsModule_call transport m
        [("flow_rate", flow_rate), ("head", head),
         ("efficiency", efficiency), ("fluid_density", fluid_density)]

/-! ### Helper lemmas -/

/-- A key that differs from every key of an association list is not found by
`List.lookup`. -/
lemma lookup_eq_none_of_all_ne {β : Type} (key : String)
    (l : List (String × β)) (h : l.all (fun kv => kv.1 != key) = true) :
    List.lookup key l = none := by
  induction l with
  | nil => rfl
  | cons kv t ih =>
    obtain ⟨k, v⟩ := kv
    simp only [List.all_cons, Bool.and_eq_true, bne_iff_ne] at h
    obtain ⟨h1, h2⟩ := h
    have hne : (key == k) = false := beq_false_of_ne (Ne.symm h1)
    simp [List.lookup_cons, hne, ih h2]

/-- `pyOrEmptyDict` on a present dict is the dict itself: the empty dict is
falsy in Python, but `left-brace right-brace or left-brace right-brace` is
again the empty dict. -/
lemma pyOrEmptyDict_some (d : List (String × JVal)) :
    pyOrEmptyDict (some d) = d := by
  cases d <;> rfl

/-- A status in the 2xx range is none of the error statuses `_make_request`
checks for. -/
lemma status_2xx_not_error {status : Nat} (h1 : 200 ≤ status)
    (h2 : status < 300) :
    status ≠ 401 ∧ status ≠ 429 ∧ ¬ 400 ≤ status := by
  omega

/-- On the 2xx path, `_make_request` reduces to envelope handling. -/
lemma make_request_2xx (status : Nat) (fields : List (String × JVal))
    (h1 : 200 ≤ status) (h2 : status < 300) :
    make_request (.response status (.json fields)) =
      (match parseAPIResponse fields with
       | .error e => .error (.apiError ("Invalid response format: " ++ e) none)
       | .ok resp =>
         if resp.success then .ok (pyOrEmptyDict resp.data)
         else .error (.apiError (pyOrStr resp.error "Unknown API error")
           none)) := by
  obtain ⟨h401, h429, h400⟩ := status_2xx_not_error h1 h2
  simp only [make_request, if_neg h401, if_neg h429, if_neg h400]

/-- A nonempty violation list makes `PressureDropInput` construction fail. -/
lemma validatePressureDropInput_error (i : PressureDropInput)
    (h : pressureDropViolations i ≠ []) :
    validatePressureDropInput i =
      .error (String.intercalate ", " (pressureDropViolations i)) := by
  unfold validatePressureDropInput
  cases hv : pressureDropViolations i with
  | nil => exact absurd hv h
  | cons v vs => rfl

/-! ### Claim C1 — transport failure mapping -/

/-- Claim C1 counterexample: a 500 response whose body is JSON-decodable but
has no `error` key. The code raises `APIError` with the `.get` default
message `HTTP 500`, which is not the (absent) envelope `error` field and is
not the not-JSON-decodable message built from status and body either
(`HTTP 500: ...`); the claim as stated covers neither possibility for this
input. -/
theorem C1_counterexample :
    make_request (.response 500 (.json [("detail", .str "boom")])) =
      .error (.apiError "HTTP 500" (some 500)) ∧
    lookupField [("detail", .str "boom")] "error" = none :=
  ⟨rfl, rfl⟩

/-- Claim C1 (amended): the failure mapping of `_make_request` by priority
with first match winning — a low-level transport failure raises
`NetworkError` carrying the cause message; status 401 raises
`AuthenticationError`; status 429 raises `RateLimitError`; any other status
≥ 400 raises `APIError` whose message is the envelope's `error` field when
the body is JSON-decodable and carries an `error` key, the default
`HTTP <status>` when the body is JSON-decodable without an `error` key, and
`HTTP <status>: <body>` when the body is not JSON-decodable. -/
theorem C1_failure_mapping :
    (∀ cause, make_request (.failure cause) =
      .error (.networkError ("Network request failed: " ++ cause))) ∧
    (∀ body, make_request (.response 401 body) =
      .error (.authenticationError "Invalid API key or JWT token")) ∧
    (∀ body, make_request (.response 429 body) =
      .error (.rateLimitError "Rate limit exceeded")) ∧
    (∀ status fields msg, 400 ≤ status → status ≠ 401 → status ≠ 429 →
      lookupField fields "error" = some (.str msg) →
      make_request (.response status (.json fields)) =
        .error (.apiError msg (some status))) ∧
    (∀ status fields, 400 ≤ status → status ≠ 401 → status ≠ 429 →
      lookupField fields "error" = none →
      make_request (.response status (.json fields)) =
        .error (.apiError ("HTTP " ++ toString status) (some status))) ∧
    (∀ status text, 400 ≤ status → status ≠ 401 → status ≠ 429 →
      make_request (.response status (.notJson text)) =
        .error (.apiError ("HTTP " ++ toString status ++ ": " ++ text)
          (some status))) := by
  refine ⟨fun cause => rfl, fun body => rfl, fun body => rfl, ?_, ?_, ?_⟩
  · intro status fields msg h400 h401 h429 hlook
    simp only [make_request, if_neg h401, if_neg h429, if_pos h400, hlook,
      pyToMessage]
  · intro status fields h400 h401 h429 hlook
    simp only [make_request, if_neg h401, if_neg h429, if_pos h400, hlook]
  · intro status text h400 h401 h429
    simp only [make_request, if_neg h401, if_neg h429, if_pos h400]

/-- Claim C1 witness: the amended mapping evaluated on a concrete 500
response carrying an `error` field. -/
theorem C1_failure_mapping_witness :
    make_request (.response 500 (.json [("error", .str "kaput")])) =
      .error (.apiError "kaput" (some 500)) :=
  C1_failure_mapping.2.2.2.1 500 [("error", .str "kaput")] "kaput"
    (by decide) (by decide) (by decide) rfl

/-! ### Claim C2 — strictly-positive validation blocks the network -/

/-- The violation list of `PressureDropInput` is empty exactly when all six
fields are strictly positive. -/
lemma pressureDropViolations_eq_nil_iff (i : PressureDropInput) :
    pressureDropViolations i = [] ↔
      (0 < i.flow_rate ∧ 0 < i.pipe_diameter ∧ 0 < i.pipe_length ∧
       0 < i.fluid_density ∧ 0 < i.fluid_viscosity ∧
       0 < i.pipe_roughness) := by
  unfold pressureDropViolations
  split_ifs <;> simp_all [not_le]

/-- Claim C2 counterexample: supplying `pipe_roughness=0` — a value ≤ 0 for
a strictly-positive field the claim names — raises nothing and performs one
network call: the facade passes `pipe_roughness or 0.00015`, and Python
treats `0` as falsy, so the default silently replaces the invalid value. -/
theorem C2_counterexample :
    (hydraulics_pressure_drop mockPressureDropOutcome 1 1 100 1000 1
      (some 0)).transportCalls = 1 ∧
    (hydraulics_pressure_drop mockPressureDropOutcome 1 1 100 1000 1
      (some 0)).result =
      .ok ⟨"762517.46", "1273239.54", "0.0094", "12.73"⟩ :=
  ⟨rfl, rfl⟩

/-- Claim C2 (amended): for the five required strictly-positive fields of a
pressure-drop call, any value ≤ 0 raises `ValidationError`
(`SDKValidationError`) with zero transport calls; for the optional
`pipe_roughness`, this holds for values < 0, while exactly 0 is silently
replaced by the default `0.00015` before validation. -/
theorem C2_validation_blocks_network :
    ∀ transport flow_rate pipe_diameter pipe_length fluid_density
      fluid_viscosity pipe_roughness,
      (flow_rate ≤ 0 ∨ pipe_diameter ≤ 0 ∨ pipe_length ≤ 0 ∨
        fluid_density ≤ 0 ∨ fluid_viscosity ≤ 0 ∨
        (∃ r, pipe_roughness = some r ∧ r < 0)) →
      (∃ e, (hydraulics_pressure_drop transport flow_rate pipe_diameter
          pipe_length fluid_density fluid_viscosity pipe_roughness).result =
        .error (.validationError e)) ∧
      (hydraulics_pressure_drop transport flow_rate pipe_diameter pipe_length
        fluid_density fluid_viscosity pipe_roughness).transportCalls = 0 := by
  intro transport fr pd pl rho mu ro h
  have hne : pressureDropViolations
      ⟨fr, pd, pl, rho, mu, pyOrRat ro (mkRat 15 100000)⟩ ≠ [] := by
    intro heq
    obtain ⟨h1, h2, h3, h4, h5, h6⟩ :=
      (pressureDropViolations_eq_nil_iff _).mp heq
    rcases h with h | h | h | h | h | ⟨r, hr, hrneg⟩
    · exact absurd h1 (not_lt.mpr h)
    · exact absurd h2 (not_lt.mpr h)
    · exact absurd h3 (not_lt.mpr h)
    · exact absurd h4 (not_lt.mpr h)
    · exact absurd h5 (not_lt.mpr h)
    · have h6' : 0 < pyOrRat ro (mkRat 15 100000) := h6
      rw [hr] at h6'
      simp only [pyOrRat, if_neg hrneg.ne] at h6'
      exact absurd h6' (not_lt.mpr hrneg.le)
  have hval := validatePressureDropInput_error _ hne
  constructor
  · refine ⟨"Invalid input parameters: " ++ ", ".intercalate
        (pressureDropViolations
          ⟨fr, pd, pl, rho, mu, pyOrRat ro (mkRat 15 100000)⟩), ?_⟩
    simp only [hydraulics_pressure_drop, hval]
  · simp only [hydraulics_pressure_drop, hval]

/-- Claim C2 witness: a negative flow rate on a mocked transport. -/
theorem C2_validation_blocks_network_witness :
    (∃ e, (hydraulics_pressure_drop mockPressureDropOutcome (-1) 1 100 1000 1
        none).result = .error (.validationError e)) ∧
    (hydraulics_pressure_drop mockPressureDropOutcome (-1) 1 100 1000 1
      none).transportCalls = 0 :=
  C2_validation_blocks_network mockPressureDropOutcome (-1) 1 100 1000 1 none
    (Or.inl (by decide))

/-! ### Claim C5 — result-model parsing of the success payload -/

/-- A well-formed success envelope whose data is missing the required
`velocity` field of `PressureDropResult`. -/
def mockMissingVelocityOutcome : HttpOutcome :=
  .response 200 (.json
    [("success", .bool true),
     ("data", .obj
       [("pressureDrop", .num "762517.46"),
        ("reynoldsNumber", .num "1273239.54"),
        ("frictionFactor", .num "0.0094")]),
     ("timestamp", .str "t")])

/-- Claim C5 counterexample: a successful envelope whose data is missing the
required `velocity` field makes `hydraulics.pressure_drop` raise pydantic's
own `ValidationError` — the uncaught `PressureDropResult(**response_data)` —
not `APIError`. -/
theorem C5_counterexample :
    (hydraulics_pressure_drop mockMissingVelocityOutcome 1 1 100 1000 1
      none).result =
      .error (.pydanticValidationError "velocity: field required") ∧
    EVError.isAPIError
      (.pydanticValidationError "velocity: field required") = false :=
  ⟨rfl, rfl⟩

/-- Claim C5 (amended): when the envelope data carries all four required
fields of `PressureDropResult`, parsing succeeds regardless of any unknown
extra fields (they are ignored); when the required `velocity` field is
missing, parsing — and hence the facade call — raises pydantic's
`ValidationError` rather than `APIError`. -/
theorem C5_result_parsing :
    (∀ data a b c d,
      lookupField data "pressureDrop" = some (.num a) →
      lookupField data "reynoldsNumber" = some (.num b) →
      lookupField data "frictionFactor" = some (.num c) →
      lookupField data "velocity" = some (.num d) →
      parsePressureDropResult data = .ok ⟨a, b, c, d⟩) ∧
    (∀ data a b c,
      lookupField data "pressureDrop" = some (.num a) →
      lookupField data "reynoldsNumber" = some (.num b) →
      lookupField data "frictionFactor" = some (.num c) →
      lookupField data "velocity" = none →
      parsePressureDropResult data =
        .error (.pydanticValidationError "velocity: field required")) ∧
    (∀ ts a b c,
      (hydraulics_pressure_drop (.response 200 (.json
          [("success", .bool true),
           ("data", .obj
             [("pressureDrop", .num a), ("reynoldsNumber", .num b),
              ("frictionFactor", .num c)]),
           ("timestamp", .str ts)])) 1 1 100 1000 1 none).result =
        .error (.pydanticValidationError "velocity: field required")) := by
  refine ⟨?_, ?_, fun ts a b c => rfl⟩
  · intro data a b c d h1 h2 h3 h4
    simp only [parsePressureDropResult, requireFloatField, lookupWire,
      show to_camel_case "pressure_drop" = "pressureDrop" from rfl,
      show to_camel_case "reynolds_number" = "reynoldsNumber" from rfl,
      show to_camel_case "friction_factor" = "frictionFactor" from rfl,
      show to_camel_case "velocity" = "velocity" from rfl,
      h1, h2, h3, h4]
  · intro data a b c h1 h2 h3 h4
    simp only [parsePressureDropResult, requireFloatField, lookupWire,
      show to_camel_case "pressure_drop" = "pressureDrop" from rfl,
      show to_camel_case "reynolds_number" = "reynoldsNumber" from rfl,
      show to_camel_case "friction_factor" = "frictionFactor" from rfl,
      show to_camel_case "velocity" = "velocity" from rfl,
      h1, h2, h3, h4]
    rfl

/-- Claim C5 witness: concrete data with all four fields plus an unknown
extra field parses successfully, with the extra field ignored. -/
theorem C5_result_parsing_witness :
    parsePressureDropResult
      [("pressureDrop", .num "1"), ("reynoldsNumber", .num "2"),
       ("frictionFactor", .num "3"), ("velocity", .num "4"),
       ("units", .str "Pa")] = .ok ⟨"1", "2", "3", "4"⟩ :=
  C5_result_parsing.1
    [("pressureDrop", .num "1"), ("reynoldsNumber", .num "2"),
     ("frictionFactor", .num "3"), ("velocity", .num "4"),
     ("units", .str "Pa")] "1" "2" "3" "4" rfl rfl rfl rfl

/-! ### Claim C3 — field-name round-trip -/

/-- Claim C3 counterexample: some field of some model in `models.py` has a
wire name that does not translate back to the field's snake_case name — the
explicitly aliased `OpenChannelFlowInput.mannings_s_coeff`, whose alias
`manningSCoeff` back-translates to `manning_s_coeff`. -/
theorem C3_counterexample :
    (allModels.any fun m => m.fields.any fun f =>
      (f.name == "mannings_s_coeff") &&
        (to_snake_case (f.wireName m.camelCaseAliases) != f.name)) = true ∧
    to_snake_case (ModelField.wireName true
      ⟨"mannings_s_coeff", some "manningSCoeff"⟩) = "manning_s_coeff" := by
  exact ⟨by decide, rfl⟩

/-- Claim C3 (amended): translating a field's snake_case name with the alias
generator `to_camel_case` and translating the result back to snake_case
yields the original name for every field of every model in `models.py`; the
round-trip through the actual wire name therefore holds for every field
except the single explicitly aliased one (`mannings_s_coeff`, alias
`manningSCoeff`). -/
theorem C3_roundtrip_modulo_explicit_alias :
    ((allModels.all fun m => m.fields.all fun f =>
        f.explicitAlias.isSome ||
          (to_snake_case (f.wireName m.camelCaseAliases) == f.name))
      = true) ∧
    ((allModels.all fun m => m.fields.all fun f =>
        to_snake_case (to_camel_case f.name) == f.name) = true) := by
  exact ⟨by decide, by decide⟩

/-! ### Claim C4 — `get_client` before `init` -/

/-- Claim C4 counterexample: before any `init`, `get_client` raises the
Python built-in `RuntimeError`, which is not in the SDK's error taxonomy
(it does not subclass `EngiVaultError`, hence is not a
`ConfigurationError`-class error). -/
theorem C4_counterexample :
    get_client none =
      .error (.runtimeError
        ("EngiVault client not initialized. " ++
         "Call engivault.init(\x27your-api-key\x27) first.")) ∧
    EVError.isEngiVaultError
      (.runtimeError
        ("EngiVault client not initialized. " ++
         "Call engivault.init(\x27your-api-key\x27) first.")) = false :=
  ⟨rfl, rfl⟩

/-- Claim C4 (amended): if `init` was never called, `get_client` raises
`RuntimeError` — a Python built-in outside the SDK's error taxonomy, the
behavior the repository's own `tests/test_shortcuts.py` expects — whose
message says the client is not initialized. -/
theorem C4_get_client_uninitialized :
    ∃ msg, get_client none = .error (.runtimeError msg) ∧
      List.IsInfix "not initialized".data msg.data ∧
      EVError.isEngiVaultError (.runtimeError msg) = false := by
  exact ⟨_, rfl, by decide, rfl⟩

/-! ### Claim C6 — credential handling at construction -/

/-- A nonempty string is Python-truthy. -/
lemma pyTruthyStr_of_ne {s : String} (h : s ≠ "") :
    pyTruthyStr (some s) = true := by
  cases hke : s.isEmpty with
  | false => simp [pyTruthyStr, hke]
  | true => exact absurd ((String.isEmpty_iff s).mp hke) h

/-- Claim C6: constructing a client with neither API key nor JWT token
raises `ConfigurationError`; with both supplied (nonempty) the construction
is accepted and `_setup_auth` deterministically applies exactly one header
scheme — the bearer token wins over the API key, the `X-API-Key` header is
never set — and every request issued by the client carries exactly the
construction-time session headers (the SDK never writes to
`session.headers` after `__init__`). -/
theorem C6_auth_scheme :
    (∀ u t, EngiVaultClient_init none none u t =
      .error (.configurationError
        "Either api_key or jwt_token must be provided")) ∧
    (∀ k tok u t c, k ≠ "" → tok ≠ "" →
      EngiVaultClient_init (some k) (some tok) u t = .ok c →
      (List.lookup "Authorization" (requestHeaders c) =
        some ("Bearer " ++ tok) ∧
       List.lookup "X-API-Key" (requestHeaders c) = none ∧
       requestHeaders c = c.headers)) := by
  refine ⟨fun u t => rfl, ?_⟩
  intro k tok u t c hk htok hc
  have hkT := pyTruthyStr_of_ne hk
  have htokT := pyTruthyStr_of_ne htok
  simp only [EngiVaultClient_init, hkT, htokT, Bool.not_true, Bool.and_self,
    Bool.false_eq_true, if_false, Except.ok.injEq] at hc
  subst hc
  refine ⟨?_, ?_, rfl⟩
  · simp [requestHeaders, setup_auth, htokT, List.lookup_cons]
  · simp [requestHeaders, setup_auth, htokT, List.lookup_cons,
      show (("X-API-Key" : String) == "Authorization") = false from rfl,
      show (("X-API-Key" : String) == "Content-Type") = false from rfl,
      show (("X-API-Key" : String) == "User-Agent") = false from rfl]

/-- A client constructed with both credentials, for evaluating the claim. -/
def sampleBothClient : Client :=
  ⟨some "key", some "token", "https://example", 30,
    setup_auth (some "key") (some "token")⟩

/-- Claim C6 witness: concrete construction with both credentials. -/
theorem C6_auth_scheme_witness :
    List.lookup "Authorization" (requestHeaders sampleBothClient) =
      some ("Bearer " ++ "token") ∧
    List.lookup "X-API-Key" (requestHeaders sampleBothClient) = none ∧
    requestHeaders sampleBothClient = sampleBothClient.headers :=
  C6_auth_scheme.2 "key" "token" "https://example" 30 sampleBothClient
    (by decide) (by decide) rfl

/-! ### Claim C7 — `success == false` envelopes -/

/-- Claim C7 counterexample: a valid envelope with `success: false` and the
non-null but empty `error: ""` raises `APIError` with the generic fallback
message, not with the envelope's error field: Python `or` treats the empty
string as falsy. -/
theorem C7_counterexample :
    make_request (.response 200 (.json
      [("success", .bool false), ("error", .str ""),
       ("timestamp", .str "t")])) =
      .error (.apiError "Unknown API error" none) ∧
    "Unknown API error" ≠ "" :=
  ⟨rfl, by decide⟩

/-- Claim C7 (amended): for every 2xx response decoding to a valid envelope
with `success == false`, the call raises `APIError` whose message equals the
envelope's `error` field when that field is non-null and nonempty, and the
generic fallback `Unknown API error` when it is null or empty; in particular
a mocked `success: false, error: "X"` response with HTTP 200 makes the
pressure-drop facade raise `APIError` with message `X`. -/
theorem C7_success_false_raises :
    (∀ status fields env, 200 ≤ status → status < 300 →
      parseAPIResponse fields = .ok env → env.success = false →
      ((∀ m, env.error = some m → m ≠ "" →
        make_request (.response status (.json fields)) =
          .error (.apiError m none)) ∧
       ((env.error = none ∨ env.error = some "") →
        make_request (.response status (.json fields)) =
          .error (.apiError "Unknown API error" none)))) ∧
    (hydraulics_pressure_drop (.response 200 (.json
        [("success", .bool false), ("error", .str "X"),
         ("timestamp", .str "t")])) 1 1 100 1000 1 none).result =
      .error (.apiError "X" none) := by
  refine ⟨?_, rfl⟩
  intro status fields env h200 h300 hparse hfail
  constructor
  · intro m hm hne
    rw [make_request_2xx status fields h200 h300, hparse]
    simp [hfail, pyOrStr, hm, hne]
  · intro hor
    rw [make_request_2xx status fields h200 h300, hparse]
    rcases hor with h | h <;> simp [hfail, pyOrStr, h]

/-- The fields of a mocked failure envelope used to evaluate claim C7. -/
def mockFailEnvelopeFields : List (String × JVal) :=
  [("success", .bool false), ("error", .str "Boom"), ("timestamp", .str "t")]

/-- Claim C7 witness: concrete `success: false` envelope with error
message `Boom`. -/
theorem C7_success_false_raises_witness :
    make_request (.response 200 (.json mockFailEnvelopeFields)) =
      .error (.apiError "Boom" none) :=
  (C7_success_false_raises.1 200 mockFailEnvelopeFields
      ⟨false, none, some "Boom", "t"⟩ (by decide) (by decide) rfl rfl).1
    "Boom" rfl (by decide)

/-! ### Claim C8 — `success == true` envelopes return the data -/

/-- Claim C8: for every 2xx response decoding to a valid envelope with
`success == true`, `_make_request` returns the envelope's `data` object, and
the empty mapping when `data` is null or absent; no error is raised on this
path. -/
theorem C8_success_returns_data :
    ∀ status fields env, 200 ≤ status → status < 300 →
      parseAPIResponse fields = .ok env → env.success = true →
      ((env.data = none →
        make_request (.response status (.json fields)) = .ok []) ∧
       (∀ d, env.data = some d →
        make_request (.response status (.json fields)) = .ok d)) := by
  intro status fields env h200 h300 hparse hsucc
  constructor
  · intro hd
    rw [make_request_2xx status fields h200 h300, hparse]
    simp [hsucc, hd, pyOrEmptyDict]
  · intro d hd
    rw [make_request_2xx status fields h200 h300, hparse]
    simp [hsucc, hd, pyOrEmptyDict_some]

/-- Claim C8 witness: a concrete success envelope whose data passes through
unchanged. -/
theorem C8_success_returns_data_witness :
    make_request (.response 200 (.json
      [("success", .bool true), ("timestamp", .str "t"),
       ("data", .obj [("flowRate", .num "0.0356")])])) =
      .ok [("flowRate", .num "0.0356")] :=
  (C8_success_returns_data 200
      [("success", .bool true), ("timestamp", .str "t"),
       ("data", .obj [("flowRate", .num "0.0356")])]
      ⟨true, some [("flowRate", .num "0.0356")], none, "t"⟩
      (by decide) (by decide) rfl rfl).2
    [("flowRate", .num "0.0356")] rfl

/-! ### Claim C9 — singleton accessor, last-init-wins -/

/-- A successful `shortcuts.init` stores exactly the client it returns. -/
lemma shortcuts_init_store {store store2 : Option Client}
    {k j : Option String} {u : String} {t : Nat} {c : Client}
    (h : shortcuts_init store k j u t = (.ok c, store2)) :
    store2 = some c := by
  unfold shortcuts_init at h
  cases hinit : EngiVaultClient_init k j u t with
  | ok c0 =>
    rw [hinit] at h
    injection h with h1 h2
    injection h1 with h1
    rw [← h2, h1]
  | error e =>
    rw [hinit] at h
    injection h with h1 h2
    exact Except.noConfusion h1

/-- Claim C9: after a successful `init` returning client `c`, the stored
global is exactly `c` and every subsequent `get_client` returns `c` (a pure
function of the unchanged store, hence the same instance on repeated calls);
a later successful `init` overwrites the store — last-init-wins — after
which `get_client` returns the new instance. -/
theorem C9_singleton :
    ∀ store k j u t c store2,
      shortcuts_init store k j u t = (.ok c, store2) →
      (store2 = some c ∧ get_client store2 = .ok c ∧
       ∀ k2 j2 u2 t2 c2 store3,
         shortcuts_init store2 k2 j2 u2 t2 = (.ok c2, store3) →
         store3 = some c2 ∧ get_client store3 = .ok c2) := by
  intro store k j u t c store2 h
  obtain rfl : store2 = some c := shortcuts_init_store h
  refine ⟨rfl, rfl, ?_⟩
  intro k2 j2 u2 t2 c2 store3 h3
  obtain rfl : store3 = some c2 := shortcuts_init_store h3
  exact ⟨rfl, rfl⟩

/-- The client stored by a concrete first `init`. -/
def sampleClient : Client :=
  ⟨some "key", none, "https://example", 30, setup_auth (some "key") none⟩

/-- Claim C9 witness: a concrete `init` followed by `get_client`. -/
theorem C9_singleton_witness :
    some sampleClient = some sampleClient ∧
    get_client (some sampleClient) = .ok sampleClient :=
  ⟨(C9_singleton none (some "key") none "https://example" 30 sampleClient
      (some sampleClient) rfl).1,
   (C9_singleton none (some "key") none "https://example" 30 sampleClient
      (some sampleClient) rfl).2.1⟩

/-! ### Claim C10 — `pump_power` names a nonexistent method -/

/-- Claim C10: `shortcuts.pump_power` invokes the attribute
`pump_performance` on the pumps facade, but `PumpsModule` defines only
`performance` and `npsh`; so after a successful `init` every call raises
`AttributeError` before any validation or network activity — zero transport
calls, never a pump-performance result. -/
theorem C10_pump_power_always_raises :
    (PumpsModule_getattr "pump_performance" = none ∧
     PumpsModule_getattr "performance" = some .performance) ∧
    ∀ c transport flow_rate head efficiency fluid_density,
      pump_power (some c) transport flow_rate head efficiency fluid_density =
        ⟨.error (.attributeError
          ("\x27PumpsModule\x27 object has no attribute " ++
           "\x27pump_performance\x27")), 0⟩ :=
  ⟨⟨rfl, rfl⟩, fun _ _ _ _ _ _ => rfl⟩

end EngiVault
